import Mathlib

/-!
Shallow embedding of the webevo-report-gen ingestion-to-render pipeline
(`webevo_report_generator.py`, `config.py`) and proofs of the spec's claims.

JSON values are modelled by an inductive `Json`; a loaded JSON object is an
association list `List (String × Json)` (Python dicts preserve insertion
order and have unique keys).  Scores in the data contract are integers, so
numbers are modelled by `Int`.
-/

namespace WebEvo

/-- JSON values as loaded by `json.load`.  The data contract (§3) uses only
strings, integers, objects, arrays and null, so those are the constructors. -/
inductive Json where
  | str (s : String)
  | int (n : Int)
  | obj (fields : List (String × Json))
  | arr (elems : List Json)
  | null
deriving Repr

/-- Dict key lookup (`k in d` / `d[k]`); Python dict keys are unique, so the
first match is the value. -/
def jlookup (data : List (String × Json)) (k : String) : Option Json :=
  match data with
  | [] => none
  | (k', v) :: rest => if k' = k then some v else jlookup rest k

/-- Embeds `data[k]` after a containment check has established presence. -/
def dget (data : List (String × Json)) (k : String) : Json :=
  (jlookup data k).getD .null

/-- Embeds `ReportGenerator._get_grade` / `config.get_grade`: the if/elif chain
converting a numeric score to a letter grade. -/
def get_grade (score : Int) : String :=
  if score ≥ 97 then "A+"
  else if score ≥ 93 then "A"
  else if score ≥ 90 then "A-"
  else if score ≥ 87 then "B+"
  else if score ≥ 83 then "B"
  else if score ≥ 80 then "B-"
  else if score ≥ 77 then "C+"
  else if score ≥ 73 then "C"
  else if score ≥ 70 then "C-"
  else if score ≥ 67 then "D+"
  else if score ≥ 63 then "D"
  else if score ≥ 60 then "D-"
  else "F"

/-! ## Report Model Builder (`ReportGenerator.parse_json_data`) -/

/-- The four required top-level fields checked by `parse_json_data`. -/
def requiredFields : List String :=
  ["url", "generatedAt", "overallScore", "overallRating"]

/-- Embeds `raise ValueError(f"Missing required field: {field}")`. -/
inductive ParseError where
  | missingField (name : String)
deriving Repr, DecidableEq

/-- Remove the entry with key `k` (`d.pop(k)`; dict keys are unique). -/
def removeKey (k : String) : List (String × Json) → List (String × Json)
  | [] => []
  | (k', v) :: rest => if k' = k then rest else (k', v) :: removeKey k rest

/-- Replace the value stored at key `k` by `f` of it, in place (mutating a
dict value keeps the key's position in insertion order). -/
def updateAt (k : String) (f : Json → Json) : List (String × Json) → List (String × Json)
  | [] => []
  | (k', v) :: rest => if k' = k then (k', f v) :: rest else (k', v) :: updateAt k f rest

/-- Embeds `d[new] = d.pop(old)` guarded by `old in d`: the value moves from key
`old` to fresh key `new`, which lands at the end of the insertion order.
Non-object values are left unchanged (the §3 contract makes these objects). -/
def renameField (old new : String) (j : Json) : Json :=
  match j with
  | .obj fields =>
    match jlookup fields old with
    | some v => .obj (removeKey old fields ++ [(new, v)])
    | none => .obj fields
  | _ => j

/-- The `items` → `recommendations_list` renaming inside `topRecommendations`. -/
def fixTopRecommendations (parsed : List (String × Json)) : List (String × Json) :=
  updateAt "topRecommendations" (renameField "items" "recommendations_list") parsed

/-- Per-module `items` renaming: `recommendations` first, then `issues`. -/
def fixModule (m : Json) : Json :=
  match m with
  | .obj mf =>
    .obj (updateAt "issues" (renameField "items" "issues_list")
      (updateAt "recommendations" (renameField "items" "recommendations_list") mf))
  | _ => m

/-- The loop over `parsed_data['modules'].items()` applying `fixModule`. -/
def fixModules (parsed : List (String × Json)) : List (String × Json) :=
  updateAt "modules" (fun j => match j with
    | .obj ms => .obj (ms.map (fun km => (km.1, fixModule km.2)))
    | _ => j) parsed

/-- Embeds `ReportGenerator.parse_json_data` on the loaded JSON object: raise on the
first missing required field, otherwise build the `parsed_data` dict literal
(optional fields defaulted) and apply the two `items` renaming passes. -/
def parse_json_data (data : List (String × Json)) :
    Except ParseError (List (String × Json)) :=
  match requiredFields.find? (fun f => (jlookup data f).isNone) with
  | some f => .error (.missingField f)
  | none =>
    .ok (fixModules (fixTopRecommendations [
      ("url", dget data "url"),
      ("generatedAt", dget data "generatedAt"),
      ("overallScore", dget data "overallScore"),
      ("overallRating", dget data "overallRating"),
      ("modules", (jlookup data "modules").getD (.obj [])),
      ("topRecommendations", (jlookup data "topRecommendations").getD (.obj [])),
      ("reportId", (jlookup data "reportId").getD (.str "")),
      ("schemaVersion", (jlookup data "schemaVersion").getD (.str "")),
      ("industryContext", (jlookup data "industryContext").getD (.obj [])),
      ("viewports", (jlookup data "viewports").getD (.arr []))
    ]))

/-! ## `config.validate_json_data` -/

/-- Digit accumulation for `int(...)` applied to a string. -/
def digitsVal (acc : Nat) : List Char → Option Nat
  | [] => some acc
  | c :: cs => if c.isDigit then digitsVal (acc * 10 + (c.toNat - 48)) cs else none

/-- A nonempty all-digit run, else `none`. -/
def parseDigits : List Char → Option Nat
  | [] => none
  | c :: cs => digitsVal 0 (c :: cs)

/-- Strip leading and trailing whitespace, as `int(str)` does. -/
def pyStrip (s : List Char) : List Char :=
  (((s.dropWhile Char.isWhitespace).reverse).dropWhile Char.isWhitespace).reverse

/-- Embeds `int(s)` for a string: optional sign then digits, else ValueError. -/
def pyIntOfString (s : String) : Option Int :=
  match pyStrip s.data with
  | '-' :: ds => (parseDigits ds).map (fun n => -(n : Int))
  | '+' :: ds => (parseDigits ds).map (fun n => (n : Int))
  | ds => (parseDigits ds).map (fun n => (n : Int))

/-- Embeds `int(x)` on a JSON value: ints pass through, numeric strings parse,
objects / arrays / null raise TypeError (`none`). -/
def pyIntOpt : Json → Option Int
  | .int n => some n
  | .str s => pyIntOfString s
  | _ => none

/-- Embeds `config.validate_json_data`: required fields present, `overallScore`
convertible by `int(...)` and inside `[0, 100]`. -/
def validate_json_data (data : List (String × Json)) : Bool :=
  if requiredFields.all (fun f => (jlookup data f).isSome) then
    match pyIntOpt (dget data "overallScore") with
    | some score => !(score < 0 || score > 100)
    | none => false
  else false

/-! ## String and URL helpers -/

/-- Does `pat` occur at the head of `s`? -/
def startsWithL : List Char → List Char → Bool
  | [], _ => true
  | _ :: _, [] => false
  | p :: ps, c :: cs => p = c && startsWithL ps cs

/-- Scan worker for `replaceAll`; `fuel` bounds the number of scan steps
(each step consumes at least one character, so `s.length` suffices) and
keeps the recursion structural. -/
def replaceAllAux (pat repl : List Char) : Nat → List Char → List Char
  | _, [] => []
  | 0, s => s
  | fuel + 1, c :: cs =>
    if !pat.isEmpty && startsWithL pat (c :: cs) then
      repl ++ replaceAllAux pat repl fuel ((c :: cs).drop pat.length)
    else
      c :: replaceAllAux pat repl fuel cs

/-- Python `str.replace(pat, repl)`: left-to-right, non-overlapping
replacement of every occurrence (an empty pattern is never used here;
Python would interleave `repl` everywhere). -/
def replaceAll (pat repl s : List Char) : List Char :=
  replaceAllAux pat repl s.length s

/-- Embeds `str.replace` on `String`s. -/
def pyReplace (s pat repl : String) : String :=
  (replaceAll pat.data repl.data s.data).asString

/-- Characters allowed after the first in a URL scheme. -/
def isSchemeTailChar (c : Char) : Bool :=
  c.isAlphanum || c == '+' || c == '-' || c == '.'

/-- Embeds `urllib.parse.urlparse` scheme splitting: when the text before the first
colon is a well-formed scheme (leading letter, scheme charset), drop it and
the colon; otherwise leave the URL alone. -/
def dropScheme (s : List Char) : List Char :=
  match s.span (fun c => c != ':') with
  | (c :: bRest, ':' :: rest) =>
    if c.isAlpha && bRest.all isSchemeTailChar then rest else s
  | _ => s

/-- Embeds `urlparse(url).netloc` on the character list: after the scheme, a
netloc exists only behind `//` and runs to the next `/`, `?` or `#`;
otherwise it is empty. -/
def netlocChars (u : List Char) : List Char :=
  match dropScheme u with
  | '/' :: '/' :: rest =>
    rest.takeWhile (fun c => c != '/' && c != '?' && c != '#')
  | _ => []

/-- Embeds `urlparse(url).netloc`. -/
def urlNetloc (url : String) : String :=
  (netlocChars url.data).asString

/-- Embeds `generate_html`: `urlparse(data['url']).netloc.replace('www.', '')`. -/
def extract_domain (url : String) : String :=
  pyReplace (urlNetloc url) "www." ""

/-- Embeds `generate_report`: `netloc.replace('www.', '').replace('.', '-')`. -/
def filename_domain (url : String) : String :=
  pyReplace (extract_domain url) "." "-"

/-- Embeds `config.format_domain`: `re.sub(r'^https?://(www\.)?', '', url)` (the
`www.` is consumed only when a scheme matched), `rstrip('/')`, dots to
hyphens.  This is the repository's own spec-faithful domain formatter. -/
def format_domain (url : String) : String :=
  let u := url.data
  let afterScheme : Option (List Char) :=
    if startsWithL "https://".data u then some (u.drop 8)
    else if startsWithL "http://".data u then some (u.drop 7)
    else none
  let u1 := match afterScheme with
    | some r => if startsWithL "www.".data r then r.drop 4 else r
    | none => u
  let u2 := (u1.reverse.dropWhile (fun c => c == '/')).reverse
  (replaceAll ".".data "-".data u2).asString

/-- The domain the claim's words describe: the url with its scheme stripped,
a leading `www.` stripped, and any trailing slash removed (stated for
comparison with the pipeline's `extract_domain`). -/
def claimed_domain (url : String) : String :=
  let u := url.data
  let u1 :=
    if startsWithL "https://".data u then u.drop 8
    else if startsWithL "http://".data u then u.drop 7
    else u
  let u2 := if startsWithL "www.".data u1 then u1.drop 4 else u1
  ((u2.reverse.dropWhile (fun c => c == '/')).reverse).asString

/-! ## Artifact Namer (`generate_report` filename computation)

`dateutil.parser.parse` is an external library; its outcome on
`data['generatedAt']` is passed in as an `Option PyDate` (`none` models the
`except` branch), and `datetime.now()` as `today`. -/

/-- A calendar date, as used by `strftime('%Y-%m-%d')`. -/
structure PyDate where
  year : Nat
  month : Nat
  day : Nat
deriving Repr, DecidableEq

/-- Zero-pad to two digits (`%m`, `%d`). -/
def pad2 (n : Nat) : String :=
  if n < 10 then "0" ++ toString n else toString n

/-- Zero-pad to four digits (`%Y`). -/
def pad4 (n : Nat) : String :=
  if n < 10 then "000" ++ toString n
  else if n < 100 then "00" ++ toString n
  else if n < 1000 then "0" ++ toString n
  else toString n

/-- Embeds `strftime('%Y-%m-%d')`. -/
def fmtYmd (d : PyDate) : String :=
  pad4 d.year ++ "-" ++ pad2 d.month ++ "-" ++ pad2 d.day

/-- The filename's date component: `generatedAt` when `dateutil` parses it,
else `datetime.now()` — the `try`/`except` around `dateutil.parser.parse`. -/
def date_component (parsedGen : Option PyDate) (today : PyDate) : String :=
  match parsedGen with
  | some d => fmtYmd d
  | none => fmtYmd today

/-- Embeds `output_filename = f"{domain}_{date_str}_webevo-ai.png"`. -/
def output_filename_of (url : String) (parsedGen : Option PyDate) (today : PyDate) : String :=
  filename_domain url ++ "_" ++ date_component parsedGen today ++ "_webevo-ai.png"

/-! ## `ReportGenerator.generate_report` -/

/-- The constructor arguments of `ReportGenerator`; `__init__` stores both
and creates `output_dir` on disk. -/
structure ReportGenerator where
  template_dir : String
  output_dir : String

/-- Embeds `ReportGenerator.generate_report`: parse, render HTML, compute the
output filename, screenshot.  Failures anywhere are caught and become
`None`; `renderOk` models whether the Playwright engine session succeeds
(`generate_png` raises on engine faults).  A non-string `url` makes
`urlparse` raise and a non-integer `overallScore` makes `_get_grade`'s
comparison raise, both caught as `None`.  The returned path is exactly the
bare `output_filename`: the method never reads `self.output_dir`. -/
def ReportGenerator.generate_report (_gen : ReportGenerator)
    (raw : List (String × Json)) (parsedGen : Option PyDate) (today : PyDate)
    (renderOk : Bool) : Option String :=
  match parse_json_data raw with
  | .error _ => none
  | .ok data =>
    match jlookup data "url", jlookup data "overallScore" with
    | some (.str url), some (.int _) =>
      if renderOk then some (output_filename_of url parsedGen today) else none
    | _, _ => none

/-! ## `generate_html` enrichment (domain, grades) -/

/-- Embeds `module['summary']['score']` when the module is an object with an
integer score under `summary`, matching the guard
`'summary' in module and 'score' in module['summary']`. -/
def module_score (m : Json) : Option Int :=
  match m with
  | .obj mf =>
    match jlookup mf "summary" with
    | some (.obj sf) =>
      match jlookup sf "score" with
      | some (.int s) => some s
      | _ => none
    | _ => none
  | _ => none

/-- The `moduleGrade` dict built by `generate_html`: one entry per module
whose `summary.score` is present, graded by `_get_grade` with no range
check. -/
def moduleGrades (modules : List (String × Json)) : List (String × String) :=
  modules.filterMap (fun km => (module_score km.2).map (fun s => (km.1, get_grade s)))

/-- The fields `generate_html` adds to the data before rendering the
template (`fmtGen` is the `dateutil`-formatted `generatedAt`, `none` when
unparsable). -/
structure HtmlData where
  formattedDate : String
  domain : String
  overallGrade : String
  moduleGrade : List (String × String)
deriving Repr, DecidableEq

/-- The enrichment performed by `generate_html` on well-typed input. -/
def generate_html_data (url generatedAt : String) (fmtGen : Option String)
    (overallScore : Int) (modules : List (String × Json)) : HtmlData :=
  { formattedDate := fmtGen.getD generatedAt
    domain := extract_domain url
    overallGrade := get_grade overallScore
    moduleGrade := moduleGrades modules }

/-! ## Rendering Readiness Controller (`generate_png`) -/

/-- One observable action of `generate_png` between content load and
browser close.  Times are in seconds: `timeout=15000` ms, `timeout=10000`
ms, `time.sleep(5)`, `time.sleep(2)`, `screenshot(full_page=True)`. -/
inductive RenderStep where
  | pollPrimary (timeoutSec : Nat) (found : Bool)
  | pollSecondary (timeoutSec : Nat) (found : Bool)
  | fixedDelay (sec : Nat)
  | settleDelay (sec : Nat)
  | capture (fullPage : Bool)
deriving Repr, DecidableEq

/-- The readiness protocol of `generate_png`: wait for
`#opportunities-list > div` (15 s); on timeout wait for
`#warnings-list > div` (10 s); on timeout `sleep(5)`; always `sleep(2)` and
screenshot with `full_page=True`.  `primaryFound` / `secondaryFound` say
whether each selector materializes within its timeout. -/
def generate_png_steps (primaryFound secondaryFound : Bool) : List RenderStep :=
  (if primaryFound then [.pollPrimary 15 true]
   else .pollPrimary 15 false ::
     (if secondaryFound then [.pollSecondary 10 true]
      else [.pollSecondary 10 false, .fixedDelay 5]))
  ++ [.settleDelay 2, .capture true]

/-! ## Ingestion Pipeline (`FileWatcher`) -/

/-- Embeds `FileWatcher`'s only mutable state: the `processed_files` set (kept as a
list; only membership and insertion are used). -/
structure WatcherState where
  processed_files : List String
deriving Repr, DecidableEq

/-- A watchdog filesystem event. -/
inductive FsEvent where
  | created (isDir : Bool) (path : String)
  | modified (isDir : Bool) (path : String)
deriving Repr, DecidableEq

/-- Embeds `pathlib.Path(p).suffix`: the final component's extension including the
dot, empty for dotless or dot-leading names. -/
def pathSuffix (p : String) : String :=
  let name := (p.data.reverse.takeWhile (fun c => c != '/')).reverse
  match name.reverse.span (fun c => c != '.') with
  | (revExt, '.' :: revStem) =>
    if revStem = [] then "" else ("." ++ revExt.reverse.asString)
  | _ => ""

/-- Embeds `file_path.suffix.lower() == '.json'`. -/
def isJsonFile (p : String) : Bool :=
  ((pathSuffix p).data.map Char.toLower).asString == ".json"

/-- Embeds `FileWatcher._process_file`.  Here `gen path` is the outcome of
`self.report_generator.generate_report(path)` (`none` covers both a `None`
return and a raised exception — the `except` block also skips the insert).
The second component records the paths on which `generate_report` was
invoked, the observable "processing" of the claim.  The path joins
`processed_files` only when the result is truthy. -/
def process_file (gen : String → Option String) (st : WatcherState) (path : String) :
    WatcherState × List String :=
  if st.processed_files.contains path then (st, [])
  else
    match gen path with
    | some _ => (⟨st.processed_files ++ [path]⟩, [path])
    | none => (st, [path])

/-- Embeds `FileWatcher.on_created` / `on_modified`: ignore directories, process
`.json` paths. -/
def handle_event (gen : String → Option String) (st : WatcherState) (e : FsEvent) :
    WatcherState × List String :=
  match e with
  | .created true _ => (st, [])
  | .modified true _ => (st, [])
  | .created false p => if isJsonFile p then process_file gen st p else (st, [])
  | .modified false p => if isJsonFile p then process_file gen st p else (st, [])

/-- The watch loop dispatching a sequence of events, accumulating the
processing log. -/
def run_events (gen : String → Option String) (st : WatcherState) :
    List FsEvent → WatcherState × List String
  | [] => (st, [])
  | e :: es =>
    let r1 := handle_event gen st e
    let r2 := run_events gen r1.1 es
    (r2.1, r1.2 ++ r2.2)

/-! ## Concrete records used by the claims -/

/-- A record with the four required fields and the given `overallScore`. -/
def rawWithScore (v : Json) : List (String × Json) :=
  [("url", .str "https://www.example.com/"),
   ("generatedAt", .str "2025-08-13T10:00:00Z"),
   ("overallScore", v),
   ("overallRating", .str "Good")]

/-- The §8 end-to-end input (top level; modules omitted are optional). -/
def e2eRaw : List (String × Json) :=
  [("url", .str "https://test-site.com/"),
   ("generatedAt", .str "2025-08-13T10:00:00Z"),
   ("overallScore", .int 78),
   ("overallRating", .str "Good")]

/-! ## C1 -/

/-- C1: the claim says the builder rejects an `overallScore` of 101, -1 or a
non-numeric string with a ValidationError and produces no artifact.  The
builder `parse_json_data` only checks field presence: all three records are
accepted, and the 101 record flows through `generate_report` to an artifact.
The repository's own (never invoked) `config.validate_json_data` rejects
exactly those records and accepts 0 and 100, so the range check is the
documented intent and its absence from the pipeline is a code bug. -/
theorem C1_builder_accepts_out_of_range_scores :
    (parse_json_data (rawWithScore (.int 101))).isOk = true ∧
    (parse_json_data (rawWithScore (.int (-1)))).isOk = true ∧
    (parse_json_data (rawWithScore (.str "not-a-number"))).isOk = true ∧
    ReportGenerator.generate_report ⟨"templates", "reports-final"⟩
        (rawWithScore (.int 101)) (some ⟨2025, 8, 13⟩) ⟨2025, 8, 14⟩ true =
      some "example-com_2025-08-13_webevo-ai.png" ∧
    validate_json_data (rawWithScore (.int 101)) = false ∧
    validate_json_data (rawWithScore (.int (-1))) = false ∧
    validate_json_data (rawWithScore (.str "not-a-number")) = false ∧
    validate_json_data (rawWithScore (.int 0)) = true ∧
    validate_json_data (rawWithScore (.int 100)) = true := by
  exact ⟨rfl, rfl, rfl, by decide, rfl, rfl, rfl, rfl, rfl⟩

/-! ## C2 -/

/-- C2: the claim says the artifact is written into the output directory the
generator was configured with.  `generate_report` never consults
`output_dir`: its result is identical for any configuration, and on the §8
input the artifact path is the bare filename
`test-site-com_2025-08-13_webevo-ai.png` — it contains no directory
separator and does not lie under `reports-final/`.  The constructor creates
`output_dir` and the CLI documents `--output` as the directory for generated
reports, so writing to the working directory instead is a code bug. -/
theorem C2_artifact_path_ignores_output_dir :
    (∀ (g g' : ReportGenerator) raw parsedGen today renderOk,
      ReportGenerator.generate_report g raw parsedGen today renderOk =
        ReportGenerator.generate_report g' raw parsedGen today renderOk) ∧
    ReportGenerator.generate_report ⟨"templates", "reports-final"⟩ e2eRaw
        (some ⟨2025, 8, 13⟩) ⟨2025, 8, 14⟩ true =
      some "test-site-com_2025-08-13_webevo-ai.png" ∧
    "test-site-com_2025-08-13_webevo-ai.png".data.all (fun c => c != '/') = true ∧
    startsWithL "reports-final/".data "test-site-com_2025-08-13_webevo-ai.png".data
      = false := by
  exact ⟨fun _ _ _ _ _ _ => rfl, by decide, by decide, by decide⟩

/-! ## C3 -/

/-- C3: the readiness protocol polls the primary region (15 s) first in
every trace; the secondary region (10 s) is polled exactly when the primary
timed out, immediately after it; the fixed 5 s delay occurs exactly when
both timed out, immediately after the secondary poll; every trace ends with
the 2 s settle delay followed by a full-page capture, so a readiness
timeout alone never prevents the capture attempt. -/
theorem C3_readiness_protocol_order :
    ∀ (p s : Bool),
      ((generate_png_steps p s).head? = some (.pollPrimary 15 p)) ∧
      ((RenderStep.pollSecondary 10 s ∈ generate_png_steps p s) ↔ p = false) ∧
      ((generate_png_steps false s)[1]? = some (.pollSecondary 10 s)) ∧
      ((RenderStep.fixedDelay 5 ∈ generate_png_steps p s) ↔ (p = false ∧ s = false)) ∧
      ((generate_png_steps false false)[2]? = some (.fixedDelay 5)) ∧
      ((generate_png_steps p s).getLast? = some (.capture true)) ∧
      ((generate_png_steps p s).dropLast.getLast? = some (.settleDelay 2)) := by
  intro p s
  cases p <;> cases s <;> decide

/-! ## C6 -/

/-- C6 counterexample: the claim's universal description — scheme stripped,
leading `www.` stripped, trailing slash removed — disagrees with the code
on a url with a path: the code keeps only the netloc, dropping `/contact`. -/
theorem C6_domain_claim_counterexample :
    extract_domain "https://www.example.com/contact" = "example.com" ∧
    claimed_domain "https://www.example.com/contact" = "example.com/contact" ∧
    extract_domain "https://www.example.com/contact" ≠
      claimed_domain "https://www.example.com/contact" := by
  exact ⟨by decide, by decide, by decide⟩

/-- Lemma: a scan for the first separator passes over a separator-free
block unchanged. -/
theorem takeWhile_append_all {p : Char → Bool} (l1 l2 : List Char)
    (h : ∀ c ∈ l1, p c = true) :
    (l1 ++ l2).takeWhile p = l1 ++ l2.takeWhile p := by
  induction l1 with
  | nil => rfl
  | cons c cs ih =>
    have hc : p c = true := h c (List.mem_cons_self c cs)
    simp only [List.cons_append, List.takeWhile_cons, hc, if_true]
    rw [ih (fun x hx => h x (List.mem_cons_of_mem c hx))]

/-- For a url `https://<host><rest>` whose host is free of netloc
delimiters and whose remainder is empty or starts with a path, query or
fragment delimiter, the netloc is exactly the host — the remainder never
enters it. -/
theorem netlocChars_https (host rest : List Char)
    (hh : ∀ c ∈ host, (c != '/' && c != '?' && c != '#') = true)
    (hr : rest = [] ∨ rest.head? = some '/' ∨ rest.head? = some '?' ∨
      rest.head? = some '#') :
    netlocChars (("https://" ++ (host ++ rest).asString).data) = host := by
  show List.takeWhile _ (host ++ rest) = host
  rw [takeWhile_append_all host rest hh]
  have hrest : rest.takeWhile
      (fun c => c != '/' && c != '?' && c != '#') = [] := by
    rcases rest with _ | ⟨c, cs⟩
    · rfl
    · rcases hr with h0 | hc | hc | hc
      · cases h0
      all_goals
        simp only [List.head?, Option.some.injEq] at hc
        subst hc
        rfl
  rw [hrest, List.append_nil]

/-- C6 amended: for a scheme-bearing authority url `https://<host>` with an
optional path, query or fragment after the host (the §3/§8 input shape),
the extracted domain is the host (netloc) with every occurrence of `www.`
removed — not only a leading prefix — and whatever follows the host never
appears in the domain; in particular `https://www.example.com/` yields
`example.com` and filename component `example-com`. -/
theorem C6_domain_is_netloc_without_www :
    (∀ host rest : List Char,
      (∀ c ∈ host, (c != '/' && c != '?' && c != '#') = true) →
      (rest = [] ∨ rest.head? = some '/' ∨ rest.head? = some '?' ∨
        rest.head? = some '#') →
      extract_domain ("https://" ++ (host ++ rest).asString) =
        (replaceAll "www.".data [] host).asString) ∧
    extract_domain "https://www.example.com/" = "example.com" ∧
    filename_domain "https://www.example.com/" = "example-com" ∧
    extract_domain "https://sub.www.example.com/" = "sub.example.com" ∧
    extract_domain "https://www.example.com/contact" = "example.com" := by
  refine ⟨?_, by decide, by decide, by decide, by decide⟩
  intro host rest hh hr
  show (replaceAll "www.".data []
      (netlocChars (("https://" ++ (host ++ rest).asString).data))).asString
    = (replaceAll "www.".data [] host).asString
  rw [netlocChars_https host rest hh hr]

/-- Witness for the general part of the amended C6: the counterexample's
own url, split as host `www.example.com` and path `/contact`. -/
theorem C6_domain_witness :
    extract_domain ("https://" ++ ("www.example.com".data ++ "/contact".data).asString) =
      (replaceAll "www.".data [] "www.example.com".data).asString :=
  C6_domain_is_netloc_without_www.1 "www.example.com".data "/contact".data
    (by decide) (by decide)

/-! ## C7 -/

/-- C7: the artifact filename is
`<domain-with-dots-as-hyphens>_<YYYY-MM-DD>_webevo-ai.png`; the date
component is `generatedAt`'s date when `dateutil` parses it and otherwise
the current processing date, so naming is total; and any two builds with
the same domain component and the same date component produce an identical
filename.  Shown on the §8 example as well. -/
theorem C7_artifact_naming :
    (∀ url d today, output_filename_of url (some d) today =
      filename_domain url ++ "_" ++ fmtYmd d ++ "_webevo-ai.png") ∧
    (∀ url today, output_filename_of url none today =
      filename_domain url ++ "_" ++ fmtYmd today ++ "_webevo-ai.png") ∧
    (∀ u1 u2 pg1 pg2 t1 t2, filename_domain u1 = filename_domain u2 →
      date_component pg1 t1 = date_component pg2 t2 →
      output_filename_of u1 pg1 t1 = output_filename_of u2 pg2 t2) ∧
    output_filename_of "https://test-site.com/" (some ⟨2025, 8, 13⟩) ⟨2026, 1, 2⟩ =
      "test-site-com_2025-08-13_webevo-ai.png" := by
  refine ⟨fun _ _ _ => rfl, fun _ _ => rfl, ?_, by decide⟩
  intro u1 u2 pg1 pg2 t1 t2 hdom hdate
  unfold output_filename_of
  rw [hdom, hdate]

/-- Witness for C7's determinism clause: two builds, one from a `www.`-less
url with a parsable date, one from a `www.` url falling back to the
processing date, agree on the filename because domain and date components
agree. -/
theorem C7_artifact_naming_witness :
    output_filename_of "https://a-site.com/" (some ⟨2025, 1, 2⟩) ⟨2024, 12, 31⟩ =
      output_filename_of "https://www.a-site.com" none ⟨2025, 1, 2⟩ :=
  C7_artifact_naming.2.2.1 "https://a-site.com/" "https://www.a-site.com"
    (some ⟨2025, 1, 2⟩) none ⟨2024, 12, 31⟩ ⟨2025, 1, 2⟩ (by decide) (by decide)

/-! ## C8 -/

/-- C8: a record missing any of the four required top-level fields is
rejected by the builder with a missing-field error — before any model is
built — and `generate_report` yields no artifact for it, whatever the
configuration, date parse outcome or engine behaviour. -/
theorem C8_missing_required_field_rejected :
    ∀ data : List (String × Json),
      (∃ f ∈ requiredFields, jlookup data f = none) →
      (∃ f, parse_json_data data = .error (.missingField f)) ∧
      (∀ (g : ReportGenerator) parsedGen today renderOk,
        ReportGenerator.generate_report g data parsedGen today renderOk = none) := by
  intro data hmiss
  obtain ⟨f, hf, hnone⟩ := hmiss
  have hsome : (requiredFields.find? (fun f => (jlookup data f).isNone)).isSome := by
    rw [List.find?_isSome]
    exact ⟨f, hf, by simp [hnone]⟩
  obtain ⟨f', hf'⟩ := Option.isSome_iff_exists.mp hsome
  refine ⟨⟨f', ?_⟩, ?_⟩
  · simp [parse_json_data, hf']
  · intro g pg td ro
    simp [ReportGenerator.generate_report, parse_json_data, hf']

/-- Witness for C8 at the empty record, which misses all four fields. -/
theorem C8_missing_required_field_witness :
    (∃ f, parse_json_data [] = .error (.missingField f)) ∧
    (∀ (g : ReportGenerator) parsedGen today renderOk,
      ReportGenerator.generate_report g [] parsedGen today renderOk = none) :=
  C8_missing_required_field_rejected [] ⟨"url", by decide, rfl⟩

/-! ## C5 -/

/-- Lemma: `_process_file` never removes anything from `processed_files`. -/
theorem process_file_preserves_processed (gen : String → Option String)
    (st : WatcherState) (p x : String) (hx : x ∈ st.processed_files) :
    x ∈ (process_file gen st p).1.processed_files := by
  unfold process_file
  split
  · exact hx
  · split
    · simp [hx]
    · exact hx

/-- A path already in `processed_files` generates no `generate_report`
invocation from any event. -/
theorem process_file_no_reprocess (gen : String → Option String)
    (st : WatcherState) (p x : String) (hx : x ∈ st.processed_files) :
    x ∉ (process_file gen st p).2 := by
  unfold process_file
  split
  case isTrue h => simp
  case isFalse h =>
    have hne : x ≠ p := by
      intro he
      subst he
      exact h (by simp [hx])
    split <;> simp [hne]

/-- Event handling preserves `processed_files` membership. -/
theorem handle_event_preserves_processed (gen : String → Option String)
    (st : WatcherState) (e : FsEvent) (x : String) (hx : x ∈ st.processed_files) :
    x ∈ (handle_event gen st e).1.processed_files := by
  cases e with
  | created isDir p =>
    cases isDir
    · show x ∈ (if isJsonFile p = true then process_file gen st p
          else (st, [])).1.processed_files
      split
      · exact process_file_preserves_processed gen st p x hx
      · exact hx
    · exact hx
  | modified isDir p =>
    cases isDir
    · show x ∈ (if isJsonFile p = true then process_file gen st p
          else (st, [])).1.processed_files
      split
      · exact process_file_preserves_processed gen st p x hx
      · exact hx
    · exact hx

/-- Event handling never processes a path that is already recorded. -/
theorem handle_event_no_reprocess (gen : String → Option String)
    (st : WatcherState) (e : FsEvent) (x : String) (hx : x ∈ st.processed_files) :
    x ∉ (handle_event gen st e).2 := by
  cases e with
  | created isDir p =>
    cases isDir
    · show x ∉ (if isJsonFile p = true then process_file gen st p else (st, [])).2
      split
      · exact process_file_no_reprocess gen st p x hx
      · simp
    · simp [handle_event]
  | modified isDir p =>
    cases isDir
    · show x ∉ (if isJsonFile p = true then process_file gen st p else (st, [])).2
      split
      · exact process_file_no_reprocess gen st p x hx
      · simp
    · simp [handle_event]

/-- Over a whole event sequence: a recorded path stays recorded and is
never handed to `generate_report` again. -/
theorem run_events_no_reprocess (gen : String → Option String)
    (st : WatcherState) (evs : List FsEvent) (x : String)
    (hx : x ∈ st.processed_files) :
    x ∈ (run_events gen st evs).1.processed_files ∧
      x ∉ (run_events gen st evs).2 := by
  induction evs generalizing st with
  | nil => simpa [run_events] using hx
  | cons e es ih =>
    have h1 := handle_event_preserves_processed gen st e x hx
    have h2 := handle_event_no_reprocess gen st e x hx
    obtain ⟨ih1, ih2⟩ := ih (handle_event gen st e).1 h1
    simp only [run_events]
    refine ⟨ih1, ?_⟩
    rw [List.mem_append]
    rintro (hc | hc)
    · exact h2 hc
    · exact ih2 hc

/-- C5 counterexample: the claim says a path is recorded once its job
terminates "captured or failed".  A failing job (`generate_report` returns
`None`) is not recorded: a second modification event on the same path
invokes `generate_report` again. -/
theorem C5_failed_job_reprocessed :
    (run_events (fun _ => none) ⟨[]⟩
        [FsEvent.modified false "reports-raw/a.json",
         FsEvent.modified false "reports-raw/a.json"]).2 =
      ["reports-raw/a.json", "reports-raw/a.json"] ∧
    (run_events (fun _ => none) ⟨[]⟩
        [FsEvent.modified false "reports-raw/a.json",
         FsEvent.modified false "reports-raw/a.json"]).1.processed_files = [] := by
  exact ⟨rfl, rfl⟩

/-- C5 amended: only a successfully captured job records its path in the
de-duplication set; once a path is recorded, any subsequent sequence of
creation or modification events keeps it recorded and triggers no further
processing of it.  A failed job's path is not recorded and is reprocessed
on the next event. -/
theorem C5_success_recorded_then_deduped :
    ∀ (gen : String → Option String) (st : WatcherState) (path out : String),
      gen path = some out →
      path ∈ (process_file gen st path).1.processed_files ∧
      (∀ (gen' : String → Option String) (st' : WatcherState) (evs : List FsEvent),
        path ∈ st'.processed_files →
        path ∈ (run_events gen' st' evs).1.processed_files ∧
          path ∉ (run_events gen' st' evs).2) := by
  intro gen st path out hgen
  constructor
  · unfold process_file
    split
    case isTrue h => simpa using h
    case isFalse h => simp [hgen]
  · intro gen' st' evs hmem
    exact run_events_no_reprocess gen' st' evs path hmem

/-- Witness for C5: a successful job on a fresh path records it; with the
path recorded, a further modification event leaves it recorded and invokes
no processing. -/
theorem C5_success_recorded_witness :
    "reports-raw/b.json" ∈
      (process_file (fun _ => some "b.png") ⟨[]⟩ "reports-raw/b.json").1.processed_files ∧
    ("reports-raw/b.json" ∈
        (run_events (fun _ => none) ⟨["reports-raw/b.json"]⟩
          [FsEvent.modified false "reports-raw/b.json"]).1.processed_files ∧
      "reports-raw/b.json" ∉
        (run_events (fun _ => none) ⟨["reports-raw/b.json"]⟩
          [FsEvent.modified false "reports-raw/b.json"]).2) :=
  ⟨(C5_success_recorded_then_deduped (fun _ => some "b.png") ⟨[]⟩
      "reports-raw/b.json" "b.png" rfl).1,
   (C5_success_recorded_then_deduped (fun _ => some "b.png") ⟨[]⟩
      "reports-raw/b.json" "b.png" rfl).2 (fun _ => none)
      ⟨["reports-raw/b.json"]⟩ [FsEvent.modified false "reports-raw/b.json"]
      (by simp)⟩

/-! ## C9 -/

/-- Updating one key's value in place does not change the key sequence. -/
theorem updateAt_keys (k : String) (f : Json → Json) (l : List (String × Json)) :
    (updateAt k f l).map Prod.fst = l.map Prod.fst := by
  induction l with
  | nil => rfl
  | cons kv rest ih =>
    obtain ⟨k', v⟩ := kv
    unfold updateAt
    split <;> simp [ih]

/-- Updating one key's value leaves every other key's lookup unchanged. -/
theorem jlookup_updateAt_ne (k j : String) (f : Json → Json)
    (l : List (String × Json)) (h : j ≠ k) :
    jlookup (updateAt k f l) j = jlookup l j := by
  induction l with
  | nil => rfl
  | cons kv rest ih =>
    obtain ⟨k', v⟩ := kv
    by_cases hk : k' = k
    · subst hk
      have hj : ¬ (k' = j) := fun he => h he.symm
      simp only [updateAt, if_pos rfl, jlookup, if_neg hj]
    · simp only [updateAt, if_neg hk, jlookup]
      by_cases hj : k' = j
      · rw [if_pos hj, if_pos hj]
      · rw [if_neg hj, if_neg hj]
        exact ih

/-- The ten top-level keys of every built model, in insertion order. -/
def modelKeys : List String :=
  ["url", "generatedAt", "overallScore", "overallRating", "modules",
   "topRecommendations", "reportId", "schemaVersion", "industryContext",
   "viewports"]

/-- C9 counterexample: an arbitrary extra top-level key (`tier`, as in the
repository's own demo data) is present in the raw record but absent from
the built model — extra keys are not passed through. -/
theorem C9_extra_key_dropped :
    ∃ out, parse_json_data (e2eRaw ++ [("tier", .str "Professional")]) = .ok out ∧
      jlookup (e2eRaw ++ [("tier", .str "Professional")]) "tier" =
        some (.str "Professional") ∧
      jlookup out "tier" = none := by
  exact ⟨_, rfl, rfl, rfl⟩

/-- C9 amended: the named optional fields `reportId`, `schemaVersion`,
`industryContext` and `viewports` pass through into the built model
untouched when present, but arbitrary extra top-level keys are dropped: the
model's top-level keys are exactly the ten fixed ones. -/
theorem C9_named_fields_pass_through :
    ∀ (data out : List (String × Json)),
      parse_json_data data = .ok out →
      out.map Prod.fst = modelKeys ∧
      (∀ v, jlookup data "reportId" = some v → jlookup out "reportId" = some v) ∧
      (∀ v, jlookup data "schemaVersion" = some v →
        jlookup out "schemaVersion" = some v) ∧
      (∀ v, jlookup data "industryContext" = some v →
        jlookup out "industryContext" = some v) ∧
      (∀ v, jlookup data "viewports" = some v → jlookup out "viewports" = some v) := by
  intro data out hok
  unfold parse_json_data at hok
  cases hfind : requiredFields.find? (fun f => (jlookup data f).isNone) with
  | some f =>
    rw [hfind] at hok
    exact absurd hok (by simp)
  | none =>
    rw [hfind] at hok
    rw [Except.ok.injEq] at hok
    subst hok
    unfold fixModules fixTopRecommendations
    refine ⟨?_, ?_, ?_, ?_, ?_⟩
    · rw [updateAt_keys, updateAt_keys]
      rfl
    · intro v hv
      rw [jlookup_updateAt_ne _ _ _ _ (by decide),
        jlookup_updateAt_ne _ _ _ _ (by decide)]
      show (jlookup data "reportId").getD (.str "") = some v
      rw [hv]
      rfl
    · intro v hv
      rw [jlookup_updateAt_ne _ _ _ _ (by decide),
        jlookup_updateAt_ne _ _ _ _ (by decide)]
      show (jlookup data "schemaVersion").getD (.str "") = some v
      rw [hv]
      rfl
    · intro v hv
      rw [jlookup_updateAt_ne _ _ _ _ (by decide),
        jlookup_updateAt_ne _ _ _ _ (by decide)]
      show (jlookup data "industryContext").getD (.obj []) = some v
      rw [hv]
      rfl
    · intro v hv
      rw [jlookup_updateAt_ne _ _ _ _ (by decide),
        jlookup_updateAt_ne _ _ _ _ (by decide)]
      show (jlookup data "viewports").getD (.arr []) = some v
      rw [hv]
      rfl

/-- The §8 record extended with a `reportId`, and the model built from it. -/
def rawWithReportId : List (String × Json) :=
  e2eRaw ++ [("reportId", .str "test-123")]

/-- The model `parse_json_data` builds from `rawWithReportId`. -/
def builtWithReportId : List (String × Json) :=
  (parse_json_data rawWithReportId).toOption.getD []

/-- Witness for C9: on a concrete record carrying `reportId`, the built
model keeps exactly the ten fixed keys and passes `reportId` through. -/
theorem C9_named_fields_witness :
    builtWithReportId.map Prod.fst = modelKeys ∧
    jlookup builtWithReportId "reportId" = some (.str "test-123") := by
  have h := C9_named_fields_pass_through rawWithReportId builtWithReportId rfl
  exact ⟨h.1, h.2.1 (.str "test-123") rfl⟩

/-! ## C4 and C10: the grade table -/

/-- The thirteen letter grades the table can produce. -/
def gradeLetters : List String :=
  ["A+", "A", "A-", "B+", "B", "B-", "C+", "C", "C-", "D+", "D", "D-", "F"]

/-- The letters in ascending quality order, for ranking. -/
def gradeOrder : List String :=
  ["F", "D-", "D", "D+", "C-", "C", "C+", "B-", "B", "B+", "A-", "A", "A+"]

/-- Position of a letter in the quality order (higher is better). -/
def gradeRank (g : String) : Nat := gradeOrder.indexOf g

/-- The scores at which the letter changes, per the spec. -/
def gradeBoundaries : List Int := [97, 93, 90, 87, 83, 80, 77, 73, 70, 67, 63, 60]

/-- Skip one false branch of an `if` chain. -/
theorem ifSkip {c : Prop} [Decidable c] {a b : String} (h : ¬ c) :
    (if c then a else b) = b := if_neg h

theorem get_grade_Ap (s : Int) (h : 97 ≤ s) : get_grade s = "A+" := by
  unfold get_grade
  rw [if_pos h]

theorem get_grade_A (s : Int) (h1 : 93 ≤ s) (h2 : s < 97) : get_grade s = "A" := by
  unfold get_grade
  rw [ifSkip (by omega), if_pos h1]

theorem get_grade_Am (s : Int) (h1 : 90 ≤ s) (h2 : s < 93) : get_grade s = "A-" := by
  unfold get_grade
  rw [ifSkip (by omega), ifSkip (by omega), if_pos h1]

theorem get_grade_Bp (s : Int) (h1 : 87 ≤ s) (h2 : s < 90) : get_grade s = "B+" := by
  unfold get_grade
  rw [ifSkip (by omega), ifSkip (by omega), ifSkip (by omega), if_pos h1]

theorem get_grade_B (s : Int) (h1 : 83 ≤ s) (h2 : s < 87) : get_grade s = "B" := by
  unfold get_grade
  rw [ifSkip (by omega), ifSkip (by omega), ifSkip (by omega), ifSkip (by omega),
    if_pos h1]

theorem get_grade_Bm (s : Int) (h1 : 80 ≤ s) (h2 : s < 83) : get_grade s = "B-" := by
  unfold get_grade
  rw [ifSkip (by omega), ifSkip (by omega), ifSkip (by omega), ifSkip (by omega),
    ifSkip (by omega), if_pos h1]

theorem get_grade_Cp (s : Int) (h1 : 77 ≤ s) (h2 : s < 80) : get_grade s = "C+" := by
  unfold get_grade
  rw [ifSkip (by omega), ifSkip (by omega), ifSkip (by omega), ifSkip (by omega),
    ifSkip (by omega), ifSkip (by omega), if_pos h1]

theorem get_grade_C (s : Int) (h1 : 73 ≤ s) (h2 : s < 77) : get_grade s = "C" := by
  unfold get_grade
  rw [ifSkip (by omega), ifSkip (by omega), ifSkip (by omega), ifSkip (by omega),
    ifSkip (by omega), ifSkip (by omega), ifSkip (by omega), if_pos h1]

theorem get_grade_Cm (s : Int) (h1 : 70 ≤ s) (h2 : s < 73) : get_grade s = "C-" := by
  unfold get_grade
  rw [ifSkip (by omega), ifSkip (by omega), ifSkip (by omega), ifSkip (by omega),
    ifSkip (by omega), ifSkip (by omega), ifSkip (by omega), ifSkip (by omega),
    if_pos h1]

theorem get_grade_Dp (s : Int) (h1 : 67 ≤ s) (h2 : s < 70) : get_grade s = "D+" := by
  unfold get_grade
  rw [ifSkip (by omega), ifSkip (by omega), ifSkip (by omega), ifSkip (by omega),
    ifSkip (by omega), ifSkip (by omega), ifSkip (by omega), ifSkip (by omega),
    ifSkip (by omega), if_pos h1]

theorem get_grade_D (s : Int) (h1 : 63 ≤ s) (h2 : s < 67) : get_grade s = "D" := by
  unfold get_grade
  rw [ifSkip (by omega), ifSkip (by omega), ifSkip (by omega), ifSkip (by omega),
    ifSkip (by omega), ifSkip (by omega), ifSkip (by omega), ifSkip (by omega),
    ifSkip (by omega), ifSkip (by omega), if_pos h1]

theorem get_grade_Dm (s : Int) (h1 : 60 ≤ s) (h2 : s < 63) : get_grade s = "D-" := by
  unfold get_grade
  rw [ifSkip (by omega), ifSkip (by omega), ifSkip (by omega), ifSkip (by omega),
    ifSkip (by omega), ifSkip (by omega), ifSkip (by omega), ifSkip (by omega),
    ifSkip (by omega), ifSkip (by omega), ifSkip (by omega), if_pos h1]

theorem get_grade_F (s : Int) (h : s < 60) : get_grade s = "F" := by
  unfold get_grade
  rw [ifSkip (by omega), ifSkip (by omega), ifSkip (by omega), ifSkip (by omega),
    ifSkip (by omega), ifSkip (by omega), ifSkip (by omega), ifSkip (by omega),
    ifSkip (by omega), ifSkip (by omega), ifSkip (by omega), ifSkip (by omega)]

/-- Every integer score gets one of the thirteen letters. -/
theorem get_grade_mem (s : Int) : get_grade s ∈ gradeLetters := by
  by_cases h12 : 97 ≤ s
  · rw [get_grade_Ap s h12]; decide
  by_cases h11 : 93 ≤ s
  · rw [get_grade_A s h11 (by omega)]; decide
  by_cases h10 : 90 ≤ s
  · rw [get_grade_Am s h10 (by omega)]; decide
  by_cases h9 : 87 ≤ s
  · rw [get_grade_Bp s h9 (by omega)]; decide
  by_cases h8 : 83 ≤ s
  · rw [get_grade_B s h8 (by omega)]; decide
  by_cases h7 : 80 ≤ s
  · rw [get_grade_Bm s h7 (by omega)]; decide
  by_cases h6 : 77 ≤ s
  · rw [get_grade_Cp s h6 (by omega)]; decide
  by_cases h5 : 73 ≤ s
  · rw [get_grade_C s h5 (by omega)]; decide
  by_cases h4 : 70 ≤ s
  · rw [get_grade_Cm s h4 (by omega)]; decide
  by_cases h3 : 67 ≤ s
  · rw [get_grade_Dp s h3 (by omega)]; decide
  by_cases h2 : 63 ≤ s
  · rw [get_grade_D s h2 (by omega)]; decide
  by_cases h1 : 60 ≤ s
  · rw [get_grade_Dm s h1 (by omega)]; decide
  rw [get_grade_F s (by omega)]; decide

set_option maxHeartbeats 4000000 in
set_option maxRecDepth 10000 in
/-- Rank monotonicity over the whole `[0, 100]` grid. -/
theorem mono_ball : ∀ s : Nat, s < 101 → ∀ t : Nat, t < 101 → s ≤ t →
    gradeRank (get_grade (s : Int)) ≤ gradeRank (get_grade (t : Int)) := by
  decide

set_option maxHeartbeats 4000000 in
set_option maxRecDepth 10000 in
/-- The letter changes between `s - 1` and `s` exactly at the boundary
scores. -/
theorem boundary_ball : ∀ s : Nat, s < 101 → 1 ≤ s →
    ((get_grade (s : Int) ≠ get_grade ((s : Int) - 1)) ↔ (s : Int) ∈ gradeBoundaries) := by
  decide

/-- Lemma `mono_ball` lifted to integer scores. -/
theorem grade_mono (s t : Int) (h0 : 0 ≤ s) (hst : s ≤ t) (h100 : t ≤ 100) :
    gradeRank (get_grade s) ≤ gradeRank (get_grade t) := by
  have hs : ((s.toNat : Nat) : Int) = s := Int.toNat_of_nonneg h0
  have ht : ((t.toNat : Nat) : Int) = t := Int.toNat_of_nonneg (le_trans h0 hst)
  have hm := mono_ball s.toNat (by omega) t.toNat (by omega) (by omega)
  rwa [hs, ht] at hm

/-- Lemma `boundary_ball` lifted to integer scores. -/
theorem grade_boundary (s : Int) (h1 : 1 ≤ s) (h2 : s ≤ 100) :
    (get_grade s ≠ get_grade (s - 1)) ↔ s ∈ gradeBoundaries := by
  have hs : ((s.toNat : Nat) : Int) = s := Int.toNat_of_nonneg (by omega)
  have hb := boundary_ball s.toNat (by omega) (by omega)
  rwa [hs] at hb

/-- A module present with a score is graded by `_get_grade` into
`moduleGrade`. -/
theorem moduleGrades_mem (mods : List (String × Json)) (k : String) (m : Json)
    (s : Int) (hmem : (k, m) ∈ mods) (hs : module_score m = some s) :
    (k, get_grade s) ∈ moduleGrades mods := by
  induction mods with
  | nil => cases hmem
  | cons km rest ih =>
    obtain ⟨k1, m1⟩ := km
    rw [List.mem_cons] at hmem
    unfold moduleGrades
    rw [List.filterMap_cons]
    rcases hmem with he | hm
    · rw [Prod.mk.injEq] at he
      obtain ⟨hk, hm1⟩ := he
      subst hk
      subst hm1
      simp [hs]
    · have hr := ih hm
      unfold moduleGrades at hr
      rcases hf : (module_score m1).map (fun v => (k1, get_grade v)) with _ | b
      · simpa [hf] using hr
      · simp only [hf]
        exact List.mem_cons_of_mem _ hr

/-- C4: on `[0, 100]` the grade is always one of the thirteen letters and
equals the fixed table (each half-open band spelled out); the rank of the
letter is monotonically non-increasing as the score decreases; the letter
changes exactly at the boundary scores {97, 93, 90, 87, 83, 80, 77, 73, 70,
67, 63, 60}; and `generate_html` applies the same `_get_grade` to the
overall score and to each module score present. -/
theorem C4_grade_table :
    (∀ s : Int, 0 ≤ s → s ≤ 100 → get_grade s ∈ gradeLetters) ∧
    (∀ s : Int, 0 ≤ s → s ≤ 100 →
      ((97 ≤ s → get_grade s = "A+") ∧
       (93 ≤ s → s < 97 → get_grade s = "A") ∧
       (90 ≤ s → s < 93 → get_grade s = "A-") ∧
       (87 ≤ s → s < 90 → get_grade s = "B+") ∧
       (83 ≤ s → s < 87 → get_grade s = "B") ∧
       (80 ≤ s → s < 83 → get_grade s = "B-") ∧
       (77 ≤ s → s < 80 → get_grade s = "C+") ∧
       (73 ≤ s → s < 77 → get_grade s = "C") ∧
       (70 ≤ s → s < 73 → get_grade s = "C-") ∧
       (67 ≤ s → s < 70 → get_grade s = "D+") ∧
       (63 ≤ s → s < 67 → get_grade s = "D") ∧
       (60 ≤ s → s < 63 → get_grade s = "D-") ∧
       (s < 60 → get_grade s = "F"))) ∧
    (∀ s t : Int, 0 ≤ s → s ≤ t → t ≤ 100 →
      gradeRank (get_grade s) ≤ gradeRank (get_grade t)) ∧
    (∀ s : Int, 1 ≤ s → s ≤ 100 →
      ((get_grade s ≠ get_grade (s - 1)) ↔ s ∈ gradeBoundaries)) ∧
    (∀ url gAt fg sc mods,
      (generate_html_data url gAt fg sc mods).overallGrade = get_grade sc) ∧
    (∀ url gAt fg sc mods k m s, (k, m) ∈ mods → module_score m = some s →
      (k, get_grade s) ∈ (generate_html_data url gAt fg sc mods).moduleGrade) := by
  refine ⟨fun s _ _ => get_grade_mem s, fun s _ _ => ?_, grade_mono, grade_boundary,
    fun _ _ _ _ _ => rfl, fun _ _ _ _ mods k m s hm hs => moduleGrades_mem mods k m s hm hs⟩
  exact ⟨fun h => get_grade_Ap s h,
    fun h1 h2 => get_grade_A s h1 h2,
    fun h1 h2 => get_grade_Am s h1 h2,
    fun h1 h2 => get_grade_Bp s h1 h2,
    fun h1 h2 => get_grade_B s h1 h2,
    fun h1 h2 => get_grade_Bm s h1 h2,
    fun h1 h2 => get_grade_Cp s h1 h2,
    fun h1 h2 => get_grade_C s h1 h2,
    fun h1 h2 => get_grade_Cm s h1 h2,
    fun h1 h2 => get_grade_Dp s h1 h2,
    fun h1 h2 => get_grade_D s h1 h2,
    fun h1 h2 => get_grade_Dm s h1 h2,
    fun h => get_grade_F s h⟩

/-- Witness for C4: each band of the table, the monotonicity clause, the
boundary clause and the module-grading clause instantiated at concrete
scores, all obtained from the claim theorem. -/
theorem C4_grade_table_witness :
    get_grade 100 ∈ gradeLetters ∧
    get_grade 98 = "A+" ∧ get_grade 95 = "A" ∧ get_grade 91 = "A-" ∧
    get_grade 88 = "B+" ∧ get_grade 85 = "B" ∧ get_grade 81 = "B-" ∧
    get_grade 78 = "C+" ∧ get_grade 75 = "C" ∧ get_grade 71 = "C-" ∧
    get_grade 68 = "D+" ∧ get_grade 65 = "D" ∧ get_grade 61 = "D-" ∧
    get_grade 30 = "F" ∧
    gradeRank (get_grade 75) ≤ gradeRank (get_grade 92) ∧
    ((get_grade 97 ≠ get_grade 96) ↔ (97 : Int) ∈ gradeBoundaries) ∧
    (generate_html_data "https://test-site.com/" "2025-08-13T10:00:00Z"
      (some "August 13, 2025") 78 []).overallGrade = get_grade 78 ∧
    ("ui", get_grade 85) ∈ (generate_html_data "https://test-site.com/"
      "2025-08-13T10:00:00Z" (some "August 13, 2025") 78
      [("ui", .obj [("summary", .obj [("score", .int 85)])])]).moduleGrade := by
  refine ⟨C4_grade_table.1 100 (by decide) (by decide), ?_, ?_, ?_, ?_, ?_, ?_, ?_, ?_,
    ?_, ?_, ?_, ?_, ?_,
    C4_grade_table.2.2.1 75 92 (by decide) (by decide) (by decide),
    C4_grade_table.2.2.2.1 97 (by decide) (by decide),
    C4_grade_table.2.2.2.2.1 "https://test-site.com/" "2025-08-13T10:00:00Z"
      (some "August 13, 2025") 78 [],
    C4_grade_table.2.2.2.2.2 "https://test-site.com/" "2025-08-13T10:00:00Z"
      (some "August 13, 2025") 78 [("ui", .obj [("summary", .obj [("score", .int 85)])])]
      "ui" (.obj [("summary", .obj [("score", .int 85)])]) 85 (by simp) rfl⟩
  · exact (C4_grade_table.2.1 98 (by decide) (by decide)).1 (by decide)
  · exact (C4_grade_table.2.1 95 (by decide) (by decide)).2.1 (by decide) (by decide)
  · exact (C4_grade_table.2.1 91 (by decide) (by decide)).2.2.1 (by decide) (by decide)
  · exact (C4_grade_table.2.1 88 (by decide) (by decide)).2.2.2.1 (by decide) (by decide)
  · exact (C4_grade_table.2.1 85 (by decide) (by decide)).2.2.2.2.1 (by decide) (by decide)
  · exact (C4_grade_table.2.1 81 (by decide) (by decide)).2.2.2.2.2.1 (by decide) (by decide)
  · exact (C4_grade_table.2.1 78 (by decide) (by decide)).2.2.2.2.2.2.1 (by decide) (by decide)
  · exact (C4_grade_table.2.1 75 (by decide) (by decide)).2.2.2.2.2.2.2.1 (by decide) (by decide)
  · exact (C4_grade_table.2.1 71 (by decide) (by decide)).2.2.2.2.2.2.2.2.1 (by decide) (by decide)
  · exact (C4_grade_table.2.1 68 (by decide) (by decide)).2.2.2.2.2.2.2.2.2.1 (by decide) (by decide)
  · exact (C4_grade_table.2.1 65 (by decide) (by decide)).2.2.2.2.2.2.2.2.2.2.1 (by decide) (by decide)
  · exact (C4_grade_table.2.1 61 (by decide) (by decide)).2.2.2.2.2.2.2.2.2.2.2.1 (by decide) (by decide)
  · exact (C4_grade_table.2.1 30 (by decide) (by decide)).2.2.2.2.2.2.2.2.2.2.2.2 (by decide)

/-- C10: `_get_grade` is total on every integer score, not just `[0, 100]`:
it always returns one of the thirteen letters, every score ≥ 97 (including
those above 100) maps to `A+`, every score < 60 (including negatives) maps
to `F`; and a module carrying any integer score — in range or not — is
graded rather than rejected, since module grading performs no range check. -/
theorem C10_grade_total_on_all_ints :
    ∀ s : Int,
      get_grade s ∈ gradeLetters ∧
      (97 ≤ s → get_grade s = "A+") ∧
      (s < 60 → get_grade s = "F") ∧
      moduleGrades [("performance", .obj [("summary", .obj [("score", .int s)])])] =
        [("performance", get_grade s)] := by
  intro s
  exact ⟨get_grade_mem s, fun h => get_grade_Ap s h, fun h => get_grade_F s h, rfl⟩

/-- Witness for C10 at the out-of-range scores 150 and -5. -/
theorem C10_grade_total_witness :
    get_grade 150 ∈ gradeLetters ∧
    get_grade 150 = "A+" ∧
    get_grade (-5) = "F" ∧
    moduleGrades [("performance", .obj [("summary", .obj [("score", .int 150)])])] =
      [("performance", "A+")] := by
  refine ⟨(C10_grade_total_on_all_ints 150).1,
    (C10_grade_total_on_all_ints 150).2.1 (by decide),
    (C10_grade_total_on_all_ints (-5)).2.2.1 (by decide), ?_⟩
  rw [(C10_grade_total_on_all_ints 150).2.2.2,
    (C10_grade_total_on_all_ints 150).2.1 (by decide)]

end WebEvo
